import Mathlib

/-!
# Chameleon injector (content/injector.js)

A shallow embedding of the content script that loads the session bootstrap data,
injects the page-context payloads in order and serves the page-context bridge.

Conventions of the embedding.

* JavaScript values that cross a context boundary (messages, JSON resources, collaborator
  replies) are structured-clone data and are represented by `Val`.  Numbers are the integer
  ones (counters, timestamps, ids); the counter of the page bridge is a JavaScript number that
  is only ever incremented from 0 and is represented by a natural number (the increment of a
  JavaScript number is exact below 2^53).
* Exceptions raised by the runtime (`TypeError`, `new Error(..)`) and rejections of the
  `chrome.*` / `fetch` collaborators are `Error` instances; an exception is represented by
  its `message`.
* An asynchronous function is represented by the sequence of effects it performs together
  with its outcome (`Eff`): a value, or the exception that escapes it.  The replies of the
  collaborators are taken from an environment `Env`, so a statement quantified over `Env`
  covers every behaviour of the collaborators.
-/

namespace Chameleon

/-! ## Values -/

/-- An exception: an `Error` instance, kept by its `message`. -/
structure JsError where
  message : String

/-- Structured-clone / JSON data. -/
inductive Val where
  | undefined
  | null
  | bool (b : Bool)
  | num (n : Int)
  | str (s : String)
  | arr (items : List Val)
  | obj (fields : List (String × Val))

namespace Val

/-- JavaScript truthiness (`if (v)`, `!v`, `a && b`). -/
def truthy : Val → Bool
  | undefined => false
  | null => false
  | bool b => b
  | num n => n != 0
  | str s => s != ""
  | arr _ => true
  | obj _ => true

/-- The value of the property `k` of `v` where the read does not throw: the own field of a
plain object, `undefined` on any other value (none of the names the script reads, `source`,
`id`, `action`, `data`, `profile`, `seed`, is a built-in property of a primitive or array). -/
def prop : Val → String → Val
  | obj fields, k => (fields.lookup k).getD undefined
  | _, _ => undefined

/-- The property read `v.k`: a `TypeError` on `undefined` and `null`. -/
def read (v : Val) (k : String) : Except JsError Val :=
  match v with
  | undefined => .error ⟨"Cannot read properties of undefined (reading '" ++ k ++ "')"⟩
  | null => .error ⟨"Cannot read properties of null (reading '" ++ k ++ "')"⟩
  | w => .ok (w.prop k)

/-- Strict equality with a string literal: `v === 'lit'`. -/
def strictEqStr : Val → String → Bool
  | str s, lit => s == lit
  | _, _ => false

end Val

/-! ## Effects -/

/-- Console levels used by the script. -/
inductive Level where
  | log
  | warn
  | error

/-- The text handed to `injectMainWorldScript`. -/
inductive Payload where
  /-- The constant `bridgeScript` (its behaviour is `Bridge` below). -/
  | bridgeScript
  /-- The template `window.__chameleonInitData = {profilesData: .., sessionSeed: ..}`. -/
  | initData (profilesData sessionSeed : Val)
  /-- The text of a fetched file. -/
  | file (content : String)

/-- Observable effects of the content script. -/
inductive Event where
  | console (level : Level) (text : String)
  /-- The call `fetch(url)`. -/
  | fetch (url : String)
  /-- The call `document.createElement('script')`, with the `id` and `textContent` the
  element is then given. -/
  | createScript (scriptId : String) (content : Payload)
  /-- The pair `target.appendChild(script); script.remove()`. -/
  | appendScript (scriptId : String) (content : Payload)
  /-- The call `chrome.runtime.sendMessage(msg)`. -/
  | runtimeSendMessage (msg : Val)
  /-- The call `chrome.storage.session.set(items)`. -/
  | storageSet (items : Val)
  /-- The call `window.postMessage(msg, '*')`. -/
  | postMessage (msg : Val)
  /-- The call `window.addEventListener('message', handler)`. -/
  | addMessageListener

/-- A computation: the effects it performed, in order, and its outcome. -/
structure Eff (α : Type) where
  trace : List Event
  result : Except JsError α

namespace Eff

/-- A computation that returns `a` and does nothing else. -/
def ret {α : Type} (a : α) : Eff α := ⟨[], .ok a⟩

/-- Sequencing: an exception of the first part skips the rest. -/
def andThen {α β : Type} (x : Eff α) (f : α → Eff β) : Eff β :=
  match x.result with
  | .ok a => ⟨x.trace ++ (f a).trace, (f a).result⟩
  | .error e => ⟨x.trace, .error e⟩

/-- The statement `throw e`. -/
def raise {α : Type} (e : JsError) : Eff α := ⟨[], .error e⟩

/-- The block `try body catch (error) handler`. -/
def tryCatch {α : Type} (body : Eff α) (handler : JsError → Eff α) : Eff α :=
  match body.result with
  | .ok a => ⟨body.trace, .ok a⟩
  | .error e => ⟨body.trace ++ (handler e).trace, (handler e).result⟩

/-- A single effect. -/
def emit (e : Event) : Eff Unit := ⟨[e], .ok ()⟩

/-- An expression that may throw and has no other effect. -/
def ofExcept {α : Type} (r : Except JsError α) : Eff α := ⟨[], r⟩

/-- A collaborator call: the call is observed, then it returns or throws. -/
def call {α : Type} (e : Event) (r : Except JsError α) : Eff α := ⟨[e], r⟩

end Eff

instance : Monad Eff where
  pure := Eff.ret
  bind := Eff.andThen

/-! ## Environment -/

/-- A `Response` of `fetch`: its status and what `text()` and `json()` settle to. -/
structure Response where
  ok : Bool
  status : Nat
  text : Except JsError String
  json : Except JsError Val

/-- What the DOM does with one script element once it is created. -/
inductive DomOutcome where
  /-- Neither `document.head` nor `document.documentElement` exists. -/
  | noTarget
  /-- The element is appended and removed. -/
  | attached
  /-- Setting up or appending the element throws. -/
  | throws (e : JsError)

/-- The collaborators of the content script. -/
structure Env where
  /-- The function `chrome.runtime.getURL` (the script runs only with `chrome.runtime.id`
  present, where it returns a string). -/
  getURL : String → String
  /-- The function `fetch`, by URL. -/
  fetch : String → Except JsError Response
  /-- The function `chrome.runtime.sendMessage`, by request. -/
  sendMessage : Val → Except JsError Val
  /-- The function `chrome.storage.session.set`, by items. -/
  storageSet : Val → Except JsError Unit
  /-- The entropy `crypto.getRandomValues` writes at each index. -/
  entropy : Nat → Nat
  /-- The DOM, by script id. -/
  dom : String → DomOutcome
  /-- The value of `Date.now()`. -/
  now : Int

/-! ## Fallback seed -/

/-- The method `Number.prototype.toString(16)` on a non-negative integer. -/
def toString16 (n : Nat) : String := String.mk (Nat.toDigits 16 n)

/-- The method `String.prototype.padStart(len, c)` with a one-character filler. -/
def padStart (s : String) (len : Nat) (c : Char) : String :=
  String.mk (List.replicate (len - s.length) c ++ s.data)

/-- The expression `Array.from(array, b => b.toString(16).padStart(2, '0')).join('')`. -/
def seedHex (array : List Nat) : String :=
  String.join (array.map fun b => padStart (toString16 b) 2 '0')

/-- The array after `new Uint8Array(32)` and `crypto.getRandomValues(array)`: 32 elements,
each stored modulo 256. -/
def randomArray (env : Env) : List Nat :=
  (List.range 32).map fun i => env.entropy i % 256

/-- A lowercase hexadecimal character. -/
def isLowerHex (c : Char) : Bool :=
  ('0' ≤ c && c ≤ '9') || ('a' ≤ c && c ≤ 'f')

/-- The value of a lowercase hexadecimal character. -/
def hexValue (c : Char) : Nat :=
  if '0' ≤ c ∧ c ≤ '9' then c.toNat - 48 else c.toNat - 87

/-! ## The content script (isolated context) -/

/-- The function `injectMainWorldScript(content, scriptId)`. -/
def injectMainWorldScript (env : Env) (content : Payload) (scriptId : String) : Eff Bool :=
  Eff.tryCatch
    (do
      Eff.emit (.createScript scriptId content)
      match env.dom scriptId with
      | .throws e => Eff.raise e
      | .attached => do
          Eff.emit (.appendScript scriptId content)
          pure true
      | .noTarget => pure false)
    (fun _error => do
      Eff.emit (.console .error ("[Chameleon Injector] Failed to inject " ++ scriptId ++ ":"))
      pure false)

/-- The expression `file.replace(/[^a-zA-Z0-9]/g, '-')`. -/
def replaceNonAlnum (file : String) : String :=
  String.mk (file.data.map fun c => if c.isAlphanum then c else '-')

/-- The expression `'chameleon-' + file.replace(/[^a-zA-Z0-9]/g, '-')`. -/
def scriptIdOf (file : String) : String :=
  "chameleon-" ++ replaceNonAlnum file

/-- The function `injectScriptFile(file)`. -/
def injectScriptFile (env : Env) (file : String) : Eff Bool :=
  Eff.tryCatch
    (do
      let url := env.getURL file
      let response ← Eff.call (.fetch url) (env.fetch url)
      if !response.ok then
        Eff.raise ⟨"Failed to fetch " ++ file ++ ": " ++ toString response.status⟩
      let content ← Eff.ofExcept response.text
      let scriptId := scriptIdOf file
      injectMainWorldScript env (.file content) scriptId)
    (fun _error => do
      Eff.emit (.console .error ("[Chameleon Injector] Failed to inject " ++ file ++ ":"))
      pure false)

/-- The object `{ profilesData, sessionSeed }` returned by `loadInitialData`. -/
structure SessionBootstrap where
  profilesData : Val
  sessionSeed : Val

/-- The request `{ action: 'getSessionSeed' }`. -/
def seedRequest : Val := .obj [("action", .str "getSessionSeed")]

/-- The function `loadInitialData()`; `none` is the returned `null`. -/
def loadInitialData (env : Env) : Eff (Option SessionBootstrap) :=
  Eff.tryCatch
    (do
      let url := env.getURL "data/profiles.json"
      let profilesResponse ← Eff.call (.fetch url) (env.fetch url)
      if !profilesResponse.ok then
        Eff.raise ⟨"Failed to load profiles data"⟩
      let profilesData ← Eff.ofExcept profilesResponse.json
      let sessionSeed ← Eff.tryCatch
        (do
          let response ← Eff.call (.runtimeSendMessage seedRequest) (env.sendMessage seedRequest)
          if response.truthy then
            let seed ← Eff.ofExcept (response.read "seed")
            if seed.truthy then pure seed else pure Val.null
          else
            pure Val.null)
        (fun _error => do
          Eff.emit (.console .error "[Chameleon Injector] Failed to get seed from background:")
          pure Val.null)
      let sessionSeed ←
        if !sessionSeed.truthy then do
          let array := randomArray env
          Eff.emit (.console .warn "[Chameleon Injector] Using locally generated seed")
          pure (Val.str (seedHex array))
        else
          pure sessionSeed
      pure (some { profilesData := profilesData, sessionSeed := sessionSeed }))
    (fun _error => do
      Eff.emit (.console .error "[Chameleon Injector] Failed to load initial data:")
      pure none)

/-- The array `scriptsToInject`. -/
def scriptsToInject : List String :=
  [ "lib/seedrandom.min.js",
    "content/modules/utils/jitter.js",
    "content/modules/interceptors/meta-proxy.js",
    "content/modules/interceptors/navigator.js",
    "content/modules/interceptors/screen.js",
    "content/modules/interceptors/canvas.js",
    "content/modules/interceptors/webgl.js",
    "content/modules/interceptors/audio.js",
    "content/modules/interceptors/timezone.js",
    "content/chameleon-main.js" ]

/-- The loop `for (const script of scripts) ..` of the main function. -/
def injectLoop (env : Env) : List String → Eff Unit
  | [] => pure ()
  | script :: rest => do
      let success ← injectScriptFile env script
      if success then
        Eff.emit (.console .log ("[Chameleon Injector] Successfully injected: " ++ script))
      else
        Eff.emit (.console .error ("[Chameleon Injector] Failed to inject: " ++ script))
      injectLoop env rest

/-- The function `setupCommunicationBridge()`: it installs `messageHandler` below. -/
def setupCommunicationBridge : Eff Unit := do
  Eff.emit .addMessageListener
  Eff.emit (.console .log "[Chameleon Injector] Communication bridge established")

/-- The function `initialize()` of the source, the main function of the script (its name
is a reserved word here, hence the suffix). -/
def initializeInjector (env : Env) : Eff Unit :=
  Eff.tryCatch
    (do
      Eff.emit (.console .log "[Chameleon Injector] Loading initial data...")
      let initialData ← loadInitialData env
      match initialData with
      | none => Eff.raise ⟨"Failed to load initial data"⟩
      | some initialData =>
        Eff.emit (.console .log "[Chameleon Injector] Initial data loaded successfully")
        let _ ← injectMainWorldScript env .bridgeScript "chameleon-bridge"
        let _ ← injectMainWorldScript env
          (.initData initialData.profilesData initialData.sessionSeed) "chameleon-init-data"
        injectLoop env scriptsToInject
        Eff.emit (.console .log "[Chameleon Injector] All scripts injected")
        setupCommunicationBridge)
    (fun _error =>
      Eff.emit (.console .error "[Chameleon Injector] Initialization failed:"))

/-- The listener that `setupCommunicationBridge` installs, run on one `event.data`. -/
def messageHandler (env : Env) (eventData : Val) : Eff Unit := do
  if eventData.truthy then
    let source ← Eff.ofExcept (eventData.read "source")
    if source.strictEqStr "chameleon-main" then
      let action ← Eff.ofExcept (eventData.read "action")
      Eff.emit (.console .log "[Chameleon Injector] Received message from MAIN:")
      let response ← Eff.tryCatch
        (do
          if action.strictEqStr "saveProfile" then
            let data ← Eff.ofExcept (eventData.read "data")
            let profile ← Eff.ofExcept (data.read "profile")
            let items := Val.obj [("profile", profile), ("timestamp", .num env.now)]
            Eff.call (.storageSet items) (env.storageSet items)
            Eff.emit (.console .log "[Chameleon Injector] Profile saved to storage")
            pure (Val.obj [("success", .bool true)])
          else if action.strictEqStr "getSessionInfo" then
            let request := Val.obj [("action", .str "getSessionInfo")]
            let info ← Eff.call (.runtimeSendMessage request) (env.sendMessage request)
            pure info
          else if action.strictEqStr "checkVPN" then
            let request := Val.obj [("action", .str "checkVPN")]
            let vpnStatus ← Eff.call (.runtimeSendMessage request) (env.sendMessage request)
            pure vpnStatus
          else
            pure (Val.obj [("error", .str "Unknown action")]))
        (fun error => do
          Eff.emit (.console .error "[Chameleon Injector] Error handling message:")
          pure (Val.obj [("error", .str error.message)]))
      let id ← Eff.ofExcept (eventData.read "id")
      Eff.emit (.postMessage (.obj
        [ ("source", .str "chameleon-isolated"),
          ("id", id),
          ("action", action),
          ("data", response) ]))

/-- The messages posted in a trace, in order. -/
def posted (t : List Event) : List Val :=
  t.filterMap fun e => match e with
    | .postMessage msg => some msg
    | _ => none

/-- The URLs fetched in a trace, in order. -/
def fetched (t : List Event) : List String :=
  t.filterMap fun e => match e with
    | .fetch url => some url
    | _ => none

/-- The script ids of the elements created in a trace, in order. -/
def created (t : List Event) : List String :=
  t.filterMap fun e => match e with
    | .createScript scriptId _ => some scriptId
    | _ => none

/-- The installations of the message listener in a trace. -/
def listeners (t : List Event) : List Unit :=
  t.filterMap fun e => match e with
    | .addMessageListener => some ()
    | _ => none

/-! ## The bridge runtime (page context, `bridgeScript`) -/

/-- The object `window.__chameleonBridge`; `R` is the type of promise resolvers. -/
structure Bridge (R : Type) where
  pendingCallbacks : List (Nat × R)
  callbackId : Nat

/-- The key a value denotes in `pendingCallbacks`, whose keys are the counter values. -/
def Val.asKey : Val → Option Nat
  | .num n => if 0 ≤ n then some n.toNat else none
  | _ => none

/-- The method `Map.prototype.get`. -/
def mapGet {R : Type} (m : List (Nat × R)) (key : Val) : Option R :=
  match key.asKey with
  | some k => m.lookup k
  | none => none

/-- The method `Map.prototype.set`: the value of a present key is replaced in place, a new
key is added at the end. -/
def mapSet {R : Type} : List (Nat × R) → Nat → R → List (Nat × R)
  | [], k, v => [(k, v)]
  | e :: rest, k, v => if e.1 == k then (k, v) :: rest else e :: mapSet rest k v

/-- The method `Map.prototype.delete`. -/
def mapDelete {R : Type} (m : List (Nat × R)) (key : Val) : List (Nat × R) :=
  match key.asKey with
  | some k => m.filter (fun e => e.1 != k)
  | none => m

/-- What one step of the page bridge did: the messages it posted and the resolvers it
invoked, each with its argument. -/
structure PageEffects (R : Type) where
  posts : List Val
  resolved : List (R × Val)

namespace Bridge

/-- The initial object: an empty map and `callbackId: 0`. -/
def init (R : Type) : Bridge R := { pendingCallbacks := [], callbackId := 0 }

/-- The method `sendToIsolated(action, data)`; `resolve` is the resolver of the promise the
call returns.  The result carries the id the call took. -/
def sendToIsolated {R : Type} (b : Bridge R) (action data : Val) (resolve : R) :
    Bridge R × Nat × PageEffects R :=
  let id := b.callbackId + 1
  let b1 : Bridge R := { b with callbackId := id }
  let b2 : Bridge R := { b1 with pendingCallbacks := mapSet b1.pendingCallbacks id resolve }
  let msg := Val.obj
    [ ("source", .str "chameleon-main"),
      ("id", .num id),
      ("action", action),
      ("data", data) ]
  (b2, id, { posts := [msg], resolved := [] })

/-- The method `handleResponse(id, data)`. -/
def handleResponse {R : Type} (b : Bridge R) (id data : Val) : Bridge R × PageEffects R :=
  match mapGet b.pendingCallbacks id with
  | some callback =>
      ({ b with pendingCallbacks := mapDelete b.pendingCallbacks id },
        { posts := [], resolved := [(callback, data)] })
  | none => (b, { posts := [], resolved := [] })

/-- The page-context listener for responses, run on one `event.data`. -/
def onMessage {R : Type} (b : Bridge R) (eventData : Val) : Bridge R × PageEffects R :=
  if eventData.truthy && (eventData.prop "source").strictEqStr "chameleon-isolated"
      && (eventData.prop "id").truthy then
    handleResponse b (eventData.prop "id") (eventData.prop "data")
  else
    (b, { posts := [], resolved := [] })

end Bridge

/-- An environment in which every collaborator succeeds: all resources are served, the seed
supplier has no seed to give and the DOM accepts every script. -/
def envBase : Env where
  getURL := fun file => "chrome-extension://chameleon/" ++ file
  fetch := fun _ => .ok { ok := true, status := 200, text := .ok "void 0;", json := .ok (.obj []) }
  sendMessage := fun _ => .ok .undefined
  storageSet := fun _ => .ok ()
  entropy := fun i => 37 * i + 11
  dom := fun _ => .attached
  now := 1700000000000

/-- The seed supplier throws. -/
def envSupplierDown : Env :=
  { envBase with sendMessage := fun _ => .error ⟨"Could not establish connection."⟩ }

/-- The profile resource is answered with status 404. -/
def envNoProfiles : Env :=
  { envBase with
    fetch := fun _ => .ok { ok := false, status := 404, text := .ok "", json := .error ⟨"Unexpected end of JSON input"⟩ } }

/-- The canvas payload cannot be fetched and the DOM rejects the WebGL payload. -/
def envPartial : Env :=
  { envBase with
    fetch := fun url =>
      if url == "chrome-extension://chameleon/content/modules/interceptors/canvas.js" then
        .error ⟨"Failed to fetch"⟩
      else
        .ok { ok := true, status := 200, text := .ok "void 0;", json := .ok (.obj []) }
    dom := fun scriptId =>
      if scriptId == "chameleon-content-modules-interceptors-webgl-js" then .noTarget
      else .attached }

/-- The session storage rejects every write. -/
def envStorageFull : Env :=
  { envBase with storageSet := fun _ => .error ⟨"QUOTA_BYTES quota exceeded"⟩ }

/-- A request of the page bridge to save a profile. -/
def saveRequest : Val :=
  .obj [ ("source", .str "chameleon-main"), ("id", .num 7), ("action", .str "saveProfile"),
    ("data", .obj [("profile", .obj [("name", .str "desktop")])]) ]

/-! # Theorems -/

/-! ## Fallback seed -/

set_option maxRecDepth 100000 in
/-- The rendering of one byte: its high and its low hexadecimal digit. -/
theorem byteHex_data : ∀ b < 256,
    (padStart (toString16 b) 2 '0').data = [Nat.digitChar (b / 16), Nat.digitChar (b % 16)] := by
  decide

/-- The digit characters below 16 are lowercase hexadecimal and have the digit as value. -/
theorem digitChar_lowerHex : ∀ d < 16,
    isLowerHex (Nat.digitChar d) = true ∧ hexValue (Nat.digitChar d) = d := by
  decide

/-- The characters of the seed: two per byte. -/
theorem seedHex_data (array : List Nat) (hbyte : ∀ b ∈ array, b < 256) :
    (seedHex array).data
      = (array.map fun b => [Nat.digitChar (b / 16), Nat.digitChar (b % 16)]).flatten := by
  unfold seedHex
  rw [String.data_join, List.map_map]
  congr 1
  apply List.map_congr_left
  intro b hb
  exact byteHex_data b (hbyte b hb)

/-- Indexing a list of pairs laid out flat. -/
theorem flatten_pairs_getElem? (f g : Nat → Char) (l : List Nat) (i : Nat) :
    (l.map fun b => [f b, g b]).flatten[2 * i]? = l[i]?.map f
      ∧ (l.map fun b => [f b, g b]).flatten[2 * i + 1]? = l[i]?.map g := by
  induction l generalizing i with
  | nil => simp
  | cons b rest ih =>
    cases i with
    | zero => simp
    | succ j =>
      have h := ih j
      have e1 : 2 * (j + 1) = (2 * j) + 1 + 1 := by ring
      have e2 : 2 * (j + 1) + 1 = (2 * j + 1) + 1 + 1 := by ring
      refine ⟨?_, ?_⟩
      · rw [e1]; simpa using h.1
      · rw [e2]; simpa using h.2

/-- The seed rendered from `n` bytes has `2 * n` characters, all lowercase hexadecimal. -/
theorem seedHex_chars (array : List Nat) (hbyte : ∀ b ∈ array, b < 256) :
    (seedHex array).length = 2 * array.length
      ∧ ∀ c ∈ (seedHex array).data, isLowerHex c = true := by
  rw [String.length, seedHex_data array hbyte]
  induction array with
  | nil => simp
  | cons b rest ih =>
    have hb : b < 256 := hbyte b (List.mem_cons_self _ _)
    have hrest : ∀ x ∈ rest, x < 256 := fun x hx => hbyte x (List.mem_cons_of_mem _ hx)
    obtain ⟨hl, hc⟩ := ih hrest
    refine ⟨?_, ?_⟩
    · simp only [List.map_cons, List.flatten_cons, List.length_append, List.length_cons,
        List.length_nil, hl]
      omega
    · intro c hmem
      simp only [List.map_cons, List.flatten_cons, List.mem_append, List.mem_cons,
        List.mem_nil_iff, or_false] at hmem
      rcases hmem with (h | h) | h
      · rw [h]; exact (digitChar_lowerHex (b / 16) (by omega)).1
      · rw [h]; exact (digitChar_lowerHex (b % 16) (by omega)).1
      · exact hc c h

/-- Claim C10. For every array of 32 bytes, the rendering
`Array.from(array, b => b.toString(16).padStart(2, '0')).join('')` has exactly 64 characters,
each of them in `0-9` or `a-f`, and the characters at `2 * i` and `2 * i + 1` are the high and
the low hexadecimal digit of byte `i`. -/
theorem seedHex_of_32_bytes (array : List Nat) (hlen : array.length = 32)
    (hbyte : ∀ b ∈ array, b < 256) :
    (seedHex array).length = 64
      ∧ (∀ c ∈ (seedHex array).data, isLowerHex c = true)
      ∧ ∀ (i : Nat) (hi : i < array.length), ∃ high low : Char,
          (seedHex array).data[2 * i]? = some high
            ∧ (seedHex array).data[2 * i + 1]? = some low
            ∧ 16 * hexValue high + hexValue low = array[i] := by
  obtain ⟨hl, hc⟩ := seedHex_chars array hbyte
  refine ⟨by rw [hl, hlen], hc, ?_⟩
  intro i hi
  have hb : array[i] < 256 := hbyte _ (List.getElem_mem hi)
  obtain ⟨h1, h2⟩ := flatten_pairs_getElem? (fun b => Nat.digitChar (b / 16))
    (fun b => Nat.digitChar (b % 16)) array i
  refine ⟨Nat.digitChar (array[i] / 16), Nat.digitChar (array[i] % 16), ?_, ?_, ?_⟩
  · rw [seedHex_data array hbyte, h1, List.getElem?_eq_getElem hi]; rfl
  · rw [seedHex_data array hbyte, h2, List.getElem?_eq_getElem hi]; rfl
  · rw [(digitChar_lowerHex (array[i] / 16) (by omega)).2,
      (digitChar_lowerHex (array[i] % 16) (by omega)).2]
    omega

/-- Witness of `seedHex_of_32_bytes` at the bytes `0, 8, 16, .., 248`. -/
theorem seedHex_of_32_bytes_witness :
    ((List.range 32).map (fun i => 8 * i)).length = 32
      ∧ (seedHex ((List.range 32).map (fun i => 8 * i))).length = 64 :=
  ⟨by decide,
    (seedHex_of_32_bytes ((List.range 32).map (fun i => 8 * i)) (by decide) (by decide)).1⟩

/-! ## Effects and values -/

theorem Eff.bind_eq {α β : Type} (x : Eff α) (f : α → Eff β) : x >>= f = x.andThen f := rfl

theorem Eff.pure_eq {α : Type} (a : α) : (pure a : Eff α) = Eff.ret a := rfl

theorem Val.truthy_null : Val.null.truthy = false := rfl

theorem Val.truthy_str (s : String) : (Val.str s).truthy = (s != "") := rfl

/-- A property read on a truthy value does not throw. -/
theorem Val.read_of_truthy (v : Val) (k : String) (h : v.truthy = true) :
    v.read k = .ok (v.prop k) := by
  cases v <;> simp_all [Val.read, Val.truthy]

/-- A falsy value has no properties. -/
theorem Val.prop_of_not_truthy (v : Val) (k : String) (h : v.truthy = false) :
    v.prop k = .undefined := by
  cases v <;> simp_all [Val.prop, Val.truthy]

/-- A value with a truthy property is truthy. -/
theorem Val.truthy_of_prop (v : Val) (k : String) (h : (v.prop k).truthy = true) :
    v.truthy = true := by
  cases hv : v.truthy with
  | true => rfl
  | false => rw [Val.prop_of_not_truthy v k hv] at h; cases h

/-! ## Session bootstrap loader -/

/-- The seed `loadInitialData` settles on, by the reply of the seed supplier. -/
theorem loadInitialData_cases (env : Env) (r : Response) (pd : Val)
    (hfetch : env.fetch (env.getURL "data/profiles.json") = .ok r) (hok : r.ok = true)
    (hjson : r.json = .ok pd) :
    (∃ response, env.sendMessage seedRequest = .ok response
        ∧ (response.prop "seed").truthy = true
        ∧ (loadInitialData env).result = .ok (some ⟨pd, response.prop "seed"⟩))
      ∨ ((∀ response, env.sendMessage seedRequest = .ok response →
            (response.prop "seed").truthy = false)
        ∧ (loadInitialData env).result = .ok (some ⟨pd, .str (seedHex (randomArray env))⟩)) := by
  cases hs : env.sendMessage seedRequest with
  | error e =>
    right
    refine ⟨fun response h => (by cases h), ?_⟩
    simp [loadInitialData, Eff.bind_eq, Eff.pure_eq, Eff.tryCatch, Eff.andThen, Eff.ret, Eff.raise, Eff.emit,
      Eff.ofExcept, Eff.call, hfetch, hok, hjson, hs, Val.truthy_null]
  | ok response =>
    cases hseed : (response.prop "seed").truthy with
    | true =>
      left
      have ht := Val.truthy_of_prop _ _ hseed
      refine ⟨response, rfl, hseed, ?_⟩
      simp [loadInitialData, Eff.bind_eq, Eff.pure_eq, Eff.tryCatch, Eff.andThen, Eff.ret, Eff.raise, Eff.emit,
      Eff.ofExcept, Eff.call, hfetch, hok, hjson, hs, ht, hseed, Val.read_of_truthy]
    | false =>
      right
      refine ⟨fun response2 h => (by cases h; exact hseed), ?_⟩
      cases ht : response.truthy with
      | false =>
        simp [loadInitialData, Eff.bind_eq, Eff.pure_eq, Eff.tryCatch, Eff.andThen, Eff.ret, Eff.raise, Eff.emit,
      Eff.ofExcept, Eff.call, hfetch, hok, hjson, hs, ht, Val.truthy_null]
      | true =>
        simp [loadInitialData, Eff.bind_eq, Eff.pure_eq, Eff.tryCatch, Eff.andThen, Eff.ret, Eff.raise, Eff.emit,
      Eff.ofExcept, Eff.call, hfetch, hok, hjson, hs, ht, hseed, Val.truthy_null,
          Val.read_of_truthy]

/-- Claim C7. When the profile resource is fetched with a success status and parses,
`loadInitialData` returns a bootstrap object (not `null`, and no exception escapes) whatever
the seed supplier does: if the supplier returns a response whose `seed` is truthy (a
non-empty string in particular), `sessionSeed` is exactly that seed; if the supplier
throws, returns nothing, or returns a response whose `seed` is missing or empty,
`sessionSeed` is the locally generated seed. -/
theorem loadInitialData_seed_choice (env : Env) (r : Response) (pd : Val)
    (hfetch : env.fetch (env.getURL "data/profiles.json") = .ok r) (hok : r.ok = true)
    (hjson : r.json = .ok pd) :
    ∃ seed : Val, (loadInitialData env).result = .ok (some ⟨pd, seed⟩)
      ∧ (∀ response, env.sendMessage seedRequest = .ok response →
          (response.prop "seed").truthy = true → seed = response.prop "seed")
      ∧ (∀ response s, env.sendMessage seedRequest = .ok response →
          response.prop "seed" = .str s → s ≠ "" → seed = .str s)
      ∧ (∀ e, env.sendMessage seedRequest = .error e →
          seed = .str (seedHex (randomArray env)))
      ∧ (env.sendMessage seedRequest = .ok .undefined →
          seed = .str (seedHex (randomArray env)))
      ∧ (∀ response, env.sendMessage seedRequest = .ok response →
          (response.prop "seed" = .undefined ∨ response.prop "seed" = .str "") →
          seed = .str (seedHex (randomArray env)))
      ∧ (∀ response, env.sendMessage seedRequest = .ok response →
          (response.prop "seed").truthy = false → seed = .str (seedHex (randomArray env))) := by
  rcases loadInitialData_cases env r pd hfetch hok hjson with ⟨r2, h2, ht, h3⟩ | ⟨h2, h3⟩
  · refine ⟨r2.prop "seed", h3, ?_, ?_, ?_, ?_, ?_, ?_⟩
    · intro response h _; rw [h2] at h; cases h; rfl
    · intro response s h hs _; rw [h2] at h; cases h; exact hs
    · intro e h; rw [h2] at h; cases h
    · intro h; rw [h2] at h; cases h; cases ht
    · intro response h hs
      rw [h2] at h; cases h
      rcases hs with hs | hs <;> rw [hs] at ht <;> cases ht
    · intro response h hf; rw [h2] at h; cases h; rw [hf] at ht; cases ht
  · refine ⟨.str (seedHex (randomArray env)), h3, ?_, ?_, ?_, ?_, ?_, ?_⟩
    · intro response h ht; rw [h2 response h] at ht; cases ht
    · intro response s h hs hne
      have := h2 response h
      rw [hs, Val.truthy_str] at this
      simp [hne] at this
    · intro _ _; rfl
    · intro _; rfl
    · intro _ _ _; rfl
    · intro _ _ _; rfl

/-- Witness of `loadInitialData_seed_choice`: the profiles are served and the supplier throws. -/
theorem loadInitialData_seed_choice_witness :
    envSupplierDown.fetch (envSupplierDown.getURL "data/profiles.json")
        = .ok { ok := true, status := 200, text := .ok "void 0;", json := .ok (.obj []) }
      ∧ ∃ seed : Val, (loadInitialData envSupplierDown).result = .ok (some ⟨.obj [], seed⟩)
          ∧ seed = .str (seedHex (randomArray envSupplierDown)) :=
  ⟨rfl,
    (loadInitialData_seed_choice envSupplierDown _ (.obj []) rfl rfl rfl).elim fun seed h =>
      ⟨seed, h.1, h.2.2.2.1 ⟨"Could not establish connection."⟩ rfl⟩⟩

/-- The three ways the profile resource can fail: `fetch` rejects, the status is not a
success, or the body does not parse. -/
theorem loadInitialData_fail (env : Env)
    (hfail : (∃ e, env.fetch (env.getURL "data/profiles.json") = .error e)
      ∨ (∃ r, env.fetch (env.getURL "data/profiles.json") = .ok r ∧ r.ok = false)
      ∨ (∃ r e, env.fetch (env.getURL "data/profiles.json") = .ok r ∧ r.json = .error e)) :
    loadInitialData env
      = ⟨[.fetch (env.getURL "data/profiles.json"),
          .console .error "[Chameleon Injector] Failed to load initial data:"], .ok none⟩ := by
  rcases hfail with ⟨e, h⟩ | ⟨r, h, hok⟩ | ⟨r, e, h, hjson⟩
  · simp [loadInitialData, Eff.bind_eq, Eff.pure_eq, Eff.tryCatch, Eff.andThen, Eff.ret, Eff.raise, Eff.emit,
      Eff.ofExcept, Eff.call, h]
  · simp [loadInitialData, Eff.bind_eq, Eff.pure_eq, Eff.tryCatch, Eff.andThen, Eff.ret, Eff.raise, Eff.emit,
      Eff.ofExcept, Eff.call, h, hok]
  · cases hok : r.ok <;> simp [loadInitialData, Eff.bind_eq, Eff.pure_eq, Eff.tryCatch, Eff.andThen, Eff.ret, Eff.raise, Eff.emit,
      Eff.ofExcept, Eff.call, h, hok, hjson]

/-- Claim C8. If the fetch of the profile resource throws, returns a non-success status, or
its body fails to parse, then `loadInitialData` returns `null`, and the main function
creates and appends no script element (neither the bridge runtime, nor the init data, nor a
listed payload), fetches no payload, does not install the message listener, and lets no
exception escape: its only effects are the profile fetch and three console lines. -/
theorem initialize_aborts_without_profiles (env : Env)
    (hfail : (∃ e, env.fetch (env.getURL "data/profiles.json") = .error e)
      ∨ (∃ r, env.fetch (env.getURL "data/profiles.json") = .ok r ∧ r.ok = false)
      ∨ (∃ r e, env.fetch (env.getURL "data/profiles.json") = .ok r ∧ r.json = .error e)) :
    (loadInitialData env).result = .ok none
      ∧ (initializeInjector env).result = .ok ()
      ∧ (initializeInjector env).trace
          = [ .console .log "[Chameleon Injector] Loading initial data...",
              .fetch (env.getURL "data/profiles.json"),
              .console .error "[Chameleon Injector] Failed to load initial data:",
              .console .error "[Chameleon Injector] Initialization failed:" ]
      ∧ created (initializeInjector env).trace = []
      ∧ fetched (initializeInjector env).trace = [env.getURL "data/profiles.json"]
      ∧ listeners (initializeInjector env).trace = []
      ∧ ∀ e ∈ (initializeInjector env).trace, ∀ scriptId content,
          e ≠ .appendScript scriptId content := by
  have hl := loadInitialData_fail env hfail
  have ht : initializeInjector env
      = ⟨[ .console .log "[Chameleon Injector] Loading initial data...",
          .fetch (env.getURL "data/profiles.json"),
          .console .error "[Chameleon Injector] Failed to load initial data:",
          .console .error "[Chameleon Injector] Initialization failed:" ], .ok ()⟩ := by
    simp [initializeInjector, Eff.bind_eq, Eff.pure_eq, Eff.tryCatch, Eff.andThen, Eff.ret, Eff.raise, Eff.emit,
      Eff.ofExcept, Eff.call, hl]
  rw [ht, hl]
  refine ⟨rfl, rfl, rfl, rfl, rfl, rfl, ?_⟩
  intro e he scriptId content
  simp only [List.mem_cons, List.mem_nil_iff, or_false] at he
  rcases he with rfl | rfl | rfl | rfl <;> simp

/-- Witness of `initialize_aborts_without_profiles`: the profile resource answers 404. -/
theorem initialize_aborts_without_profiles_witness :
    (∃ r, envNoProfiles.fetch (envNoProfiles.getURL "data/profiles.json") = .ok r
        ∧ r.ok = false)
      ∧ (initializeInjector envNoProfiles).result = .ok ()
      ∧ created (initializeInjector envNoProfiles).trace = [] :=
  ⟨⟨_, rfl, rfl⟩,
    (initialize_aborts_without_profiles envNoProfiles (Or.inr (Or.inl ⟨_, rfl, rfl⟩))).2.1,
    (initialize_aborts_without_profiles envNoProfiles (Or.inr (Or.inl ⟨_, rfl, rfl⟩))).2.2.2.1⟩

theorem fetched_append (s t : List Event) : fetched (s ++ t) = fetched s ++ fetched t := by
  simp [fetched]

theorem listeners_append (s t : List Event) :
    listeners (s ++ t) = listeners s ++ listeners t := by
  simp [listeners]

/-- The function `injectMainWorldScript` never throws, fetches nothing and installs nothing. -/
theorem injectMainWorldScript_trace (env : Env) (content : Payload) (scriptId : String) :
    ∃ ok : Bool, (injectMainWorldScript env content scriptId).result = .ok ok
      ∧ fetched (injectMainWorldScript env content scriptId).trace = []
      ∧ listeners (injectMainWorldScript env content scriptId).trace = [] := by
  cases hd : env.dom scriptId <;>
    simp [injectMainWorldScript, Eff.bind_eq, Eff.pure_eq, Eff.tryCatch, Eff.andThen, Eff.ret, Eff.raise, Eff.emit,
      Eff.ofExcept, Eff.call, hd, fetched, listeners]

/-- The function `injectScriptFile` never throws and performs exactly one fetch, of its file. -/
theorem injectScriptFile_trace (env : Env) (file : String) :
    ∃ ok : Bool, (injectScriptFile env file).result = .ok ok
      ∧ fetched (injectScriptFile env file).trace = [env.getURL file]
      ∧ listeners (injectScriptFile env file).trace = [] := by
  cases hfetch : env.fetch (env.getURL file) with
  | error e => simp [injectScriptFile, Eff.bind_eq, Eff.pure_eq, Eff.tryCatch, Eff.andThen, Eff.ret, Eff.raise, Eff.emit,
      Eff.ofExcept, Eff.call, hfetch, fetched, listeners]
  | ok r =>
    cases hok : r.ok with
    | false => simp [injectScriptFile, Eff.bind_eq, Eff.pure_eq, Eff.tryCatch, Eff.andThen, Eff.ret, Eff.raise, Eff.emit,
      Eff.ofExcept, Eff.call, hfetch, hok, fetched, listeners]
    | true =>
      cases htext : r.text with
      | error e => simp [injectScriptFile, Eff.bind_eq, Eff.pure_eq, Eff.tryCatch, Eff.andThen, Eff.ret, Eff.raise, Eff.emit,
      Eff.ofExcept, Eff.call, hfetch, hok, htext, fetched, listeners]
      | ok content =>
        obtain ⟨okInner, hr, hf, hl⟩ :=
          injectMainWorldScript_trace env (.file content) (scriptIdOf file)
        refine ⟨okInner, ?_, ?_, ?_⟩
        · simp [injectScriptFile, Eff.bind_eq, Eff.pure_eq, Eff.tryCatch, Eff.andThen, Eff.ret, Eff.raise, Eff.emit,
      Eff.ofExcept, Eff.call, hfetch, hok, htext, hr]
        · simp [injectScriptFile, Eff.bind_eq, Eff.pure_eq, Eff.tryCatch, Eff.andThen, Eff.ret, Eff.raise, Eff.emit,
      Eff.ofExcept, Eff.call, hfetch, hok, htext, hr]
          simpa [fetched] using hf
        · simp [injectScriptFile, Eff.bind_eq, Eff.pure_eq, Eff.tryCatch, Eff.andThen, Eff.ret, Eff.raise, Eff.emit,
      Eff.ofExcept, Eff.call, hfetch, hok, htext, hr]
          simpa [listeners] using hl

/-- The loop never throws, fetches the listed files in order and installs nothing. -/
theorem injectLoop_trace (env : Env) (files : List String) :
    (injectLoop env files).result = .ok ()
      ∧ fetched (injectLoop env files).trace = files.map env.getURL
      ∧ listeners (injectLoop env files).trace = [] := by
  induction files with
  | nil => simp [injectLoop, Eff.bind_eq, Eff.pure_eq, Eff.tryCatch, Eff.andThen, Eff.ret, Eff.raise, Eff.emit,
      Eff.ofExcept, Eff.call, fetched, listeners]
  | cons file rest ih =>
    obtain ⟨hr, hf, hl⟩ := ih
    obtain ⟨ok, hr1, hf1, hl1⟩ := injectScriptFile_trace env file
    simp only [fetched, listeners] at hf hl hf1 hl1 ⊢
    simp only [List.filterMap_eq_nil_iff] at hl hl1
    cases ok <;>
      simp [injectLoop, Eff.bind_eq, Eff.pure_eq, Eff.tryCatch, Eff.andThen, Eff.ret, Eff.raise, Eff.emit,
      Eff.ofExcept, Eff.call, hr1, hr, hf1, hf] <;>
      exact ⟨hl1, hl⟩

theorem fetched_cons_console (level : Level) (text : String) (t : List Event) :
    fetched (.console level text :: t) = fetched t := rfl

theorem listeners_cons_console (level : Level) (text : String) (t : List Event) :
    listeners (.console level text :: t) = listeners t := rfl

/-- A successful `loadInitialData` performs one fetch, of the profile resource, and installs
nothing. -/
theorem loadInitialData_trace (env : Env) (r : Response) (pd : Val)
    (hfetch : env.fetch (env.getURL "data/profiles.json") = .ok r) (hok : r.ok = true)
    (hjson : r.json = .ok pd) :
    fetched (loadInitialData env).trace = [env.getURL "data/profiles.json"]
      ∧ listeners (loadInitialData env).trace = [] := by
  cases hs : env.sendMessage seedRequest with
  | error e =>
    simp [loadInitialData, Eff.bind_eq, Eff.pure_eq, Eff.tryCatch, Eff.andThen, Eff.ret, Eff.raise, Eff.emit,
      Eff.ofExcept, Eff.call, hfetch, hok, hjson, hs, Val.truthy_null, fetched, listeners]
  | ok response =>
    cases ht : response.truthy with
    | false =>
      simp [loadInitialData, Eff.bind_eq, Eff.pure_eq, Eff.tryCatch, Eff.andThen, Eff.ret, Eff.raise, Eff.emit,
      Eff.ofExcept, Eff.call, hfetch, hok, hjson, hs, ht, Val.truthy_null, fetched,
        listeners]
    | true =>
      cases hseed : (response.prop "seed").truthy <;>
        simp [loadInitialData, Eff.bind_eq, Eff.pure_eq, Eff.tryCatch, Eff.andThen, Eff.ret, Eff.raise, Eff.emit,
      Eff.ofExcept, Eff.call, hfetch, hok, hjson, hs, ht, hseed, Val.truthy_null,
          Val.read_of_truthy, fetched, listeners]

set_option maxRecDepth 100000 in
/-- The twelve script ids are pairwise distinct and so are the paths of the ten payloads, so
that `Env.dom` and (under an injective `getURL`) `Env.fetch` give each injection an outcome
of its own. -/
theorem scriptIds_nodup :
    ("chameleon-bridge" :: "chameleon-init-data" :: scriptsToInject.map scriptIdOf).Nodup
      ∧ scriptsToInject.Nodup
      ∧ "data/profiles.json" ∉ scriptsToInject := by
  decide

/-- Claim C9. After a successful bootstrap, whatever the outcome of each payload fetch and
of each DOM insertion, the main function returns normally, calls `injectScriptFile` (observed
by its fetch) exactly once for each of the ten entries of `scriptsToInject`, in list order,
and installs the message listener exactly once, after all of these fetches. -/
theorem initialize_injects_all_in_order (env : Env) (r : Response) (pd : Val)
    (hfetch : env.fetch (env.getURL "data/profiles.json") = .ok r) (hok : r.ok = true)
    (hjson : r.json = .ok pd) :
    (initializeInjector env).result = .ok ()
      ∧ scriptsToInject.length = 10
      ∧ fetched (initializeInjector env).trace
          = env.getURL "data/profiles.json" :: scriptsToInject.map env.getURL
      ∧ listeners (initializeInjector env).trace = [()]
      ∧ ∃ before : List Event,
          (initializeInjector env).trace
              = before ++ [.addMessageListener,
                  .console .log "[Chameleon Injector] Communication bridge established"]
            ∧ listeners before = []
            ∧ fetched before
                = env.getURL "data/profiles.json" :: scriptsToInject.map env.getURL := by
  have hsome : ∃ seed, (loadInitialData env).result = .ok (some ⟨pd, seed⟩) := by
    rcases loadInitialData_cases env r pd hfetch hok hjson with ⟨_, _, _, h⟩ | ⟨_, h⟩
    · exact ⟨_, h⟩
    · exact ⟨_, h⟩
  obtain ⟨seed, hres⟩ := hsome
  obtain ⟨hlf, hll⟩ := loadInitialData_trace env r pd hfetch hok hjson
  obtain ⟨ok1, hr1, hf1, hl1⟩ := injectMainWorldScript_trace env .bridgeScript "chameleon-bridge"
  obtain ⟨ok2, hr2, hf2, hl2⟩ :=
    injectMainWorldScript_trace env (.initData pd seed) "chameleon-init-data"
  obtain ⟨hr3, hf3, hl3⟩ := injectLoop_trace env scriptsToInject
  have hrun : initializeInjector env
      = ⟨.console .log "[Chameleon Injector] Loading initial data..."
          :: ((loadInitialData env).trace
            ++ .console .log "[Chameleon Injector] Initial data loaded successfully"
              :: ((injectMainWorldScript env .bridgeScript "chameleon-bridge").trace
                ++ ((injectMainWorldScript env (.initData pd seed) "chameleon-init-data").trace
                  ++ (injectLoop env scriptsToInject).trace)))
          ++ [.console .log "[Chameleon Injector] All scripts injected",
              .addMessageListener,
              .console .log "[Chameleon Injector] Communication bridge established"],
        .ok ()⟩ := by
    simp [initializeInjector, setupCommunicationBridge, Eff.bind_eq, Eff.pure_eq, Eff.tryCatch, Eff.andThen, Eff.ret, Eff.raise, Eff.emit,
      Eff.ofExcept, Eff.call, hres, hr1, hr2, hr3]
  have hbefore_f : fetched (.console .log "[Chameleon Injector] Loading initial data..."
      :: ((loadInitialData env).trace
        ++ .console .log "[Chameleon Injector] Initial data loaded successfully"
          :: ((injectMainWorldScript env .bridgeScript "chameleon-bridge").trace
            ++ ((injectMainWorldScript env (.initData pd seed) "chameleon-init-data").trace
              ++ (injectLoop env scriptsToInject).trace))))
      = env.getURL "data/profiles.json" :: scriptsToInject.map env.getURL := by
    rw [fetched_cons_console, fetched_append, fetched_cons_console, fetched_append,
      fetched_append, hlf, hf1, hf2, hf3]
    rfl
  have hbefore_l : listeners (.console .log "[Chameleon Injector] Loading initial data..."
      :: ((loadInitialData env).trace
        ++ .console .log "[Chameleon Injector] Initial data loaded successfully"
          :: ((injectMainWorldScript env .bridgeScript "chameleon-bridge").trace
            ++ ((injectMainWorldScript env (.initData pd seed) "chameleon-init-data").trace
              ++ (injectLoop env scriptsToInject).trace)))) = [] := by
    rw [listeners_cons_console, listeners_append, listeners_cons_console, listeners_append,
      listeners_append, hll, hl1, hl2, hl3]
    rfl
  rw [hrun]
  refine ⟨rfl, rfl, ?_, ?_, ?_⟩
  · show fetched (_ ++ _) = _
    rw [fetched_append, hbefore_f]
    simp [fetched]
  · show listeners (_ ++ _) = _
    rw [listeners_append, hbefore_l]
    rfl
  · refine ⟨.console .log "[Chameleon Injector] Loading initial data..."
      :: ((loadInitialData env).trace
        ++ .console .log "[Chameleon Injector] Initial data loaded successfully"
          :: ((injectMainWorldScript env .bridgeScript "chameleon-bridge").trace
            ++ ((injectMainWorldScript env (.initData pd seed) "chameleon-init-data").trace
              ++ (injectLoop env scriptsToInject).trace)))
        ++ [.console .log "[Chameleon Injector] All scripts injected"], ?_, ?_, ?_⟩
    · simp
    · rw [listeners_append, hbefore_l]; rfl
    · rw [fetched_append, hbefore_f]; simp [fetched]

/-- Witness of `initialize_injects_all_in_order`: the canvas payload cannot be fetched and
the DOM rejects the WebGL payload; all ten payloads are still fetched and the listener is
installed. -/
theorem initialize_injects_all_in_order_witness :
    envPartial.fetch (envPartial.getURL "data/profiles.json")
        = .ok { ok := true, status := 200, text := .ok "void 0;", json := .ok (.obj []) }
      ∧ (initializeInjector envPartial).result = .ok ()
      ∧ listeners (initializeInjector envPartial).trace = [()] :=
  ⟨rfl,
    (initialize_injects_all_in_order envPartial _ (.obj []) rfl rfl rfl).1,
    (initialize_injects_all_in_order envPartial _ (.obj []) rfl rfl rfl).2.2.2.1⟩

/-! ## Privileged-side listener -/

theorem Val.strictEqStr_iff (v : Val) (lit : String) :
    v.strictEqStr lit = true ↔ v = .str lit := by
  cases v <;> simp [Val.strictEqStr]

theorem Val.strictEqStr_false_iff (v : Val) (lit : String) :
    v.strictEqStr lit = false ↔ v ≠ .str lit := by
  cases v <;> simp [Val.strictEqStr]

/-- The listener on a request of the page bridge: it returns normally and posts one
message, the response to that request. -/
theorem messageHandler_request (env : Env) (eventData : Val)
    (hsource : eventData.prop "source" = .str "chameleon-main") :
    (messageHandler env eventData).result = .ok ()
      ∧ ∃ response : Val, posted (messageHandler env eventData).trace
          = [.obj [ ("source", .str "chameleon-isolated"), ("id", eventData.prop "id"),
              ("action", eventData.prop "action"), ("data", response) ]] := by
  have ht : eventData.truthy = true := by
    apply Val.truthy_of_prop eventData "source"
    rw [hsource]; rfl
  have hs : (Val.str "chameleon-main").strictEqStr "chameleon-main" = true := rfl
  cases h1 : (eventData.prop "action").strictEqStr "saveProfile" with
  | true =>
    cases hp : (eventData.prop "data").read "profile" with
    | error e =>
      simp [messageHandler, Eff.bind_eq, Eff.pure_eq, Eff.tryCatch, Eff.andThen, Eff.ret, Eff.raise, Eff.emit,
      Eff.ofExcept, Eff.call, ht, Val.read_of_truthy, hsource, hs, h1, hp, posted]
    | ok profile =>
      cases hset : env.storageSet
          (.obj [("profile", profile), ("timestamp", .num env.now)]) <;>
        simp [messageHandler, Eff.bind_eq, Eff.pure_eq, Eff.tryCatch, Eff.andThen, Eff.ret, Eff.raise, Eff.emit,
      Eff.ofExcept, Eff.call, ht, Val.read_of_truthy, hsource, hs, h1, hp, hset, posted]
  | false =>
    cases h2 : (eventData.prop "action").strictEqStr "getSessionInfo" with
    | true =>
      cases hm : env.sendMessage (.obj [("action", .str "getSessionInfo")]) <;>
        simp [messageHandler, Eff.bind_eq, Eff.pure_eq, Eff.tryCatch, Eff.andThen, Eff.ret, Eff.raise, Eff.emit,
      Eff.ofExcept, Eff.call, ht, Val.read_of_truthy, hsource, hs, h1, h2, hm, posted]
    | false =>
      cases h3 : (eventData.prop "action").strictEqStr "checkVPN" with
      | true =>
        cases hm : env.sendMessage (.obj [("action", .str "checkVPN")]) <;>
          simp [messageHandler, Eff.bind_eq, Eff.pure_eq, Eff.tryCatch, Eff.andThen, Eff.ret, Eff.raise, Eff.emit,
      Eff.ofExcept, Eff.call, ht, Val.read_of_truthy, hsource, hs, h1, h2, h3, hm,
            posted]
      | false =>
        simp [messageHandler, Eff.bind_eq, Eff.pure_eq, Eff.tryCatch, Eff.andThen, Eff.ret, Eff.raise, Eff.emit,
      Eff.ofExcept, Eff.call, ht, Val.read_of_truthy, hsource, hs, h1, h2, h3, posted]

/-- The listener on any other message: no effect at all. -/
theorem messageHandler_other (env : Env) (eventData : Val)
    (hsource : eventData.prop "source" ≠ .str "chameleon-main") :
    messageHandler env eventData = ⟨[], .ok ()⟩ := by
  have hs := (Val.strictEqStr_false_iff _ _).2 hsource
  cases ht : eventData.truthy with
  | false => simp [messageHandler, Eff.bind_eq, Eff.pure_eq, Eff.tryCatch, Eff.andThen, Eff.ret, Eff.raise, Eff.emit,
      Eff.ofExcept, Eff.call, ht]
  | true => simp [messageHandler, Eff.bind_eq, Eff.pure_eq, Eff.tryCatch, Eff.andThen, Eff.ret, Eff.raise, Eff.emit,
      Eff.ofExcept, Eff.call, ht, Val.read_of_truthy, hs]

/-- Claim C1. On every message whose `source` is `'chameleon-main'`, for every action and
every outcome of the storage and background collaborators, the listener returns normally
and posts exactly one message; it is tagged `'chameleon-isolated'` and carries the `id`
(and the `action`) of the received message. On a message without data, or with any other
`source` (its own responses included), the listener does nothing. -/
theorem messageHandler_posts_exactly_one (env : Env) (eventData : Val) :
    (eventData.prop "source" = .str "chameleon-main" →
        (messageHandler env eventData).result = .ok ()
          ∧ ∃ response : Val, posted (messageHandler env eventData).trace
              = [.obj [ ("source", .str "chameleon-isolated"), ("id", eventData.prop "id"),
                  ("action", eventData.prop "action"), ("data", response) ]])
      ∧ (eventData.prop "source" ≠ .str "chameleon-main" →
          (messageHandler env eventData).result = .ok ()
            ∧ (messageHandler env eventData).trace = [])
      ∧ (messageHandler env .undefined).trace = []
      ∧ (messageHandler env .null).trace = [] := by
  refine ⟨messageHandler_request env eventData, ?_, ?_, ?_⟩
  · intro h
    rw [messageHandler_other env eventData h]
    exact ⟨rfl, rfl⟩
  · rw [messageHandler_other env .undefined (by simp [Val.prop])]
  · rw [messageHandler_other env .null (by simp [Val.prop])]

/-- Witness of `messageHandler_posts_exactly_one`: a `saveProfile` request while the
session storage rejects the write. -/
theorem messageHandler_posts_exactly_one_witness :
    saveRequest.prop "source" = .str "chameleon-main"
      ∧ (messageHandler envStorageFull saveRequest).result = .ok ()
      ∧ posted (messageHandler envStorageFull saveRequest).trace
          = [.obj [ ("source", .str "chameleon-isolated"), ("id", .num 7),
              ("action", .str "saveProfile"),
              ("data", .obj [("error", .str "QUOTA_BYTES quota exceeded")]) ]] :=
  ⟨rfl, ((messageHandler_posts_exactly_one envStorageFull saveRequest).1 rfl).1, rfl⟩

/-! ## Page-context bridge -/

theorem Val.asKey_num (n : Nat) : (Val.num (n : Int)).asKey = some n := by
  simp [Val.asKey]

theorem lookup_mapSet_self {R : Type} (m : List (Nat × R)) (k : Nat) (v : R) :
    (mapSet m k v).lookup k = some v := by
  induction m with
  | nil => simp [mapSet, List.lookup]
  | cons e rest ih =>
    obtain ⟨k1, v1⟩ := e
    by_cases hk : k1 = k
    · simp [mapSet, hk, List.lookup]
    · have hne : (k == k1) = false := by simp; exact fun h => hk h.symm
      simp [mapSet, hk, List.lookup, hne, ih]

theorem lookup_mapSet_other {R : Type} (m : List (Nat × R)) (k j : Nat) (v : R) (hj : j ≠ k) :
    (mapSet m k v).lookup j = m.lookup j := by
  induction m with
  | nil =>
    have hne : (j == k) = false := by simp [hj]
    simp [mapSet, List.lookup, hne]
  | cons e rest ih =>
    obtain ⟨k1, v1⟩ := e
    by_cases hk : k1 = k
    · subst hk
      have hne : (j == k1) = false := by simp [hj]
      simp [mapSet, List.lookup, hne]
    · by_cases hj1 : j = k1
      · simp [mapSet, hk, List.lookup, hj1]
      · have hne : (j == k1) = false := by simp [hj1]
        simp [mapSet, hk, List.lookup, hne, ih]

theorem lookup_filter_self {R : Type} (m : List (Nat × R)) (k : Nat) :
    (m.filter (fun e => e.1 != k)).lookup k = none := by
  induction m with
  | nil => rfl
  | cons e rest ih =>
    obtain ⟨k1, v1⟩ := e
    by_cases hk : k1 = k
    · simp [List.filter_cons, hk, ih]
    · have hne : (k == k1) = false := by simp; exact fun h => hk h.symm
      rw [List.filter_cons]
      simp only [bne_iff_ne, ne_eq, hk, not_false_eq_true, if_true]
      simp only [List.lookup, hne, ih]

/-- The entry of a key after `delete`: gone for the deleted key, unchanged for another. -/
theorem mapGet_mapDelete_self {R : Type} (m : List (Nat × R)) (id : Val) :
    mapGet (mapDelete m id) id = none := by
  unfold mapGet mapDelete
  cases hk : id.asKey with
  | none => rfl
  | some k => exact lookup_filter_self m k

theorem handleResponse_some {R : Type} (b : Bridge R) (id data : Val) (callback : R)
    (h : mapGet b.pendingCallbacks id = some callback) :
    b.handleResponse id data
      = ({ b with pendingCallbacks := mapDelete b.pendingCallbacks id },
          { posts := [], resolved := [(callback, data)] }) := by
  simp [Bridge.handleResponse, h]

theorem handleResponse_none {R : Type} (b : Bridge R) (id data : Val)
    (h : mapGet b.pendingCallbacks id = none) :
    b.handleResponse id data = (b, { posts := [], resolved := [] }) := by
  simp [Bridge.handleResponse, h]

/-- After `sendToIsolated`, the map holds the resolver of the call under the id it took. -/
theorem sendToIsolated_get {R : Type} (b : Bridge R) (action data : Val) (resolve : R) :
    (b.sendToIsolated action data resolve).2.1 = b.callbackId + 1
      ∧ (b.sendToIsolated action data resolve).1.callbackId = b.callbackId + 1
      ∧ mapGet (b.sendToIsolated action data resolve).1.pendingCallbacks
          (.num ((b.callbackId + 1 : Nat) : Int)) = some resolve
      ∧ ∀ j : Nat, j ≠ b.callbackId + 1 →
          mapGet (b.sendToIsolated action data resolve).1.pendingCallbacks (.num (j : Int))
            = mapGet b.pendingCallbacks (.num (j : Int)) := by
  refine ⟨rfl, rfl, ?_, ?_⟩
  · simp only [Bridge.sendToIsolated, mapGet, Val.asKey_num]
    exact lookup_mapSet_self _ _ _
  · intro j hj
    simp only [Bridge.sendToIsolated, mapGet, Val.asKey_num]
    exact lookup_mapSet_other _ _ _ _ hj

/-- Claim C3. For every bridge state and every id with no entry in `pendingCallbacks`,
`handleResponse(id, data)` invokes no resolver and returns the state unchanged; after a
first `handleResponse(id, d1)`, a second `handleResponse(id, d2)` with the same id finds no
entry and does nothing, so a resolver is invoked at most once. -/
theorem handleResponse_unknown_id_noop (R : Type) (b : Bridge R) (id d1 d2 : Val) :
    (mapGet b.pendingCallbacks id = none →
        b.handleResponse id d1 = (b, { posts := [], resolved := [] }))
      ∧ mapGet (b.handleResponse id d1).1.pendingCallbacks id = none
      ∧ (b.handleResponse id d1).1.handleResponse id d2
          = ((b.handleResponse id d1).1, { posts := [], resolved := [] })
      ∧ (b.handleResponse id d1).1.callbackId = b.callbackId := by
  have hgone : mapGet (b.handleResponse id d1).1.pendingCallbacks id = none := by
    cases hg : mapGet b.pendingCallbacks id with
    | none => rw [handleResponse_none b id d1 hg]; exact hg
    | some callback =>
      rw [handleResponse_some b id d1 callback hg]
      exact mapGet_mapDelete_self b.pendingCallbacks id
  refine ⟨handleResponse_none b id d1, hgone, handleResponse_none _ id d2 hgone, ?_⟩
  cases hg : mapGet b.pendingCallbacks id with
  | none => rw [handleResponse_none b id d1 hg]
  | some callback => rw [handleResponse_some b id d1 callback hg]

/-- Witness of `handleResponse_unknown_id_noop`: id 9 is not pending. -/
theorem handleResponse_unknown_id_noop_witness :
    mapGet (Bridge.mk [(4, "resolveFour")] 4).pendingCallbacks (.num 9) = none
      ∧ (Bridge.mk [(4, "resolveFour")] 4).handleResponse (.num 9) (.str "late")
          = (Bridge.mk [(4, "resolveFour")] 4, { posts := [], resolved := [] }) :=
  ⟨rfl, (handleResponse_unknown_id_noop String _ (.num 9) (.str "late") .null).1 rfl⟩

/-- The listener on a request whose action is none of the three it serves. -/
theorem messageHandler_unknown (env : Env) (eventData : Val)
    (hsource : eventData.prop "source" = .str "chameleon-main")
    (h1 : (eventData.prop "action").strictEqStr "saveProfile" = false)
    (h2 : (eventData.prop "action").strictEqStr "getSessionInfo" = false)
    (h3 : (eventData.prop "action").strictEqStr "checkVPN" = false) :
    messageHandler env eventData
      = ⟨[ .console .log "[Chameleon Injector] Received message from MAIN:",
          .postMessage (.obj [ ("source", .str "chameleon-isolated"),
            ("id", eventData.prop "id"), ("action", eventData.prop "action"),
            ("data", .obj [("error", .str "Unknown action")]) ]) ], .ok ()⟩ := by
  have ht : eventData.truthy = true := by
    apply Val.truthy_of_prop eventData "source"
    rw [hsource]; rfl
  have hs : (Val.str "chameleon-main").strictEqStr "chameleon-main" = true := rfl
  simp [messageHandler, Eff.bind_eq, Eff.pure_eq, Eff.tryCatch, Eff.andThen, Eff.ret, Eff.raise, Eff.emit,
      Eff.ofExcept, Eff.call, ht, Val.read_of_truthy, hsource, hs, h1, h2, h3]

/-- Claim C5. For every action other than `'saveProfile'`, `'getSessionInfo'` and
`'checkVPN'`, from every bridge state and for every behaviour of the collaborators: the
request posted by `sendToIsolated` makes the privileged listener post one response, whose
`data` is `{ error: 'Unknown action' }`, and when the page listener receives that response
it invokes the resolver of the originating call, and only it, with exactly that value. -/
theorem unknown_action_round_trip (R : Type) (env : Env) (b : Bridge R) (action data : Val)
    (resolve : R) (h1 : action ≠ .str "saveProfile") (h2 : action ≠ .str "getSessionInfo")
    (h3 : action ≠ .str "checkVPN") :
    ∃ request response : Val,
      (b.sendToIsolated action data resolve).2.2.posts = [request]
        ∧ (messageHandler env request).result = .ok ()
        ∧ posted (messageHandler env request).trace = [response]
        ∧ response.prop "source" = .str "chameleon-isolated"
        ∧ response.prop "id" = .num ((b.sendToIsolated action data resolve).2.1 : Int)
        ∧ response.prop "data" = .obj [("error", .str "Unknown action")]
        ∧ ((b.sendToIsolated action data resolve).1.onMessage response).2.resolved
            = [(resolve, .obj [("error", .str "Unknown action")])] := by
  have e1 := (Val.strictEqStr_false_iff _ _).2 h1
  have e2 := (Val.strictEqStr_false_iff _ _).2 h2
  have e3 := (Val.strictEqStr_false_iff _ _).2 h3
  obtain ⟨hid, -, hget, -⟩ := sendToIsolated_get b action data resolve
  have hreq := messageHandler_unknown env
    (.obj [ ("source", .str "chameleon-main"), ("id", .num ((b.callbackId + 1 : Nat) : Int)),
      ("action", action), ("data", data) ]) rfl e1 e2 e3
  refine ⟨.obj [ ("source", .str "chameleon-main"), ("id", .num ((b.callbackId + 1 : Nat) : Int)),
      ("action", action), ("data", data) ],
    .obj [ ("source", .str "chameleon-isolated"), ("id", .num ((b.callbackId + 1 : Nat) : Int)),
      ("action", action), ("data", .obj [("error", .str "Unknown action")]) ],
    rfl, ?_, ?_, rfl, rfl, rfl, ?_⟩
  · rw [hreq]
  · rw [hreq]
    rfl
  · have htruthy : (Val.num ((b.callbackId + 1 : Nat) : Int)).truthy = true := by
      simp only [Val.truthy, bne_iff_ne, ne_eq]
      omega
    have hon : (b.sendToIsolated action data resolve).1.onMessage
        (.obj [ ("source", .str "chameleon-isolated"),
          ("id", .num ((b.callbackId + 1 : Nat) : Int)),
          ("action", action), ("data", .obj [("error", .str "Unknown action")]) ])
        = (b.sendToIsolated action data resolve).1.handleResponse
            (.num ((b.callbackId + 1 : Nat) : Int))
            (.obj [("error", .str "Unknown action")]) := by
      unfold Bridge.onMessage
      have hp1 : (Val.obj [ ("source", .str "chameleon-isolated"),
          ("id", .num ((b.callbackId + 1 : Nat) : Int)),
          ("action", action), ("data", .obj [("error", .str "Unknown action")]) ]).prop "id"
          = .num ((b.callbackId + 1 : Nat) : Int) := rfl
      have hp2 : (Val.obj [ ("source", .str "chameleon-isolated"),
          ("id", .num ((b.callbackId + 1 : Nat) : Int)),
          ("action", action), ("data", .obj [("error", .str "Unknown action")]) ]).prop "data"
          = .obj [("error", .str "Unknown action")] := rfl
      have hp3 : (Val.obj [ ("source", .str "chameleon-isolated"),
          ("id", .num ((b.callbackId + 1 : Nat) : Int)),
          ("action", action), ("data", .obj [("error", .str "Unknown action")]) ]).prop "source"
          = .str "chameleon-isolated" := rfl
      rw [hp1, hp2, hp3, htruthy]
      rfl
    rw [hon, handleResponse_some _ _ _ resolve hget]

/-- Witness of `unknown_action_round_trip`: the action `'ping'` on a fresh bridge. -/
theorem unknown_action_round_trip_witness :
    Val.str "ping" ≠ .str "saveProfile"
      ∧ ∃ request response : Val,
          ((Bridge.init String).sendToIsolated (.str "ping") .null "resolvePing").2.2.posts
              = [request]
            ∧ posted (messageHandler envBase request).trace = [response]
            ∧ (((Bridge.init String).sendToIsolated (.str "ping") .null "resolvePing").1.onMessage
                response).2.resolved
              = [("resolvePing", .obj [("error", .str "Unknown action")])] :=
  ⟨by simp,
    (unknown_action_round_trip String envBase (Bridge.init String) (.str "ping") .null
      "resolvePing" (by simp) (by simp) (by simp)).elim fun request h =>
        h.elim fun response h => ⟨request, response, h.1, h.2.2.1, h.2.2.2.2.2.2⟩⟩

end Chameleon
